import Mathlib

/-!
# Verification of the Nabolag Slack membership webhook

Shallow embedding of the three handler variants of the repository:

* `Nabolag.Main`  — the signature-verifying handler of `src/api/events.js`
  (second segment, lines 70–393): Slack signature check, `url_verification`
  challenge, event classification, in-memory deduplication, per-usergroup
  membership update with id cleanup, welcome message.
* `Nabolag.P0`    — the per-usergroup loop of `src/unnamed/part_000`.
* `Nabolag.V3`    — the per-usergroup loop of the third segment of
  `src/api/events.js` (lines 394–531), whose cleanup filter also drops the
  configured bot user id.
* `Nabolag.Auga`  — `src/Auto User Group Adder/api/events.js`: raw-`fetch`
  variant whose signature verifier does not catch the exception that
  `crypto.timingSafeEqual` raises on buffers of different byte length.

JavaScript strings are modelled as Lean `String`s, absent (`undefined`)
values as `Option`, and JS-truthiness of a string as `≠ ""`.  Machine time
is an `Int` (milliseconds resp. seconds since the epoch).  The HMAC-SHA256
primitive of the `crypto` module is a parameter `hmac : String → String →
String` (secret → message → lowercase hex digest): every statement below is
uniform in it.  Each outbound Slack Web API interaction is an oracle field
returning `Except String _`, where `.error msg` models the client throwing
(the `@slack/web-api` `WebClient` throws on transport errors and non-ok
platform responses; `ugErr.data?.error || ugErr.message` is modelled as the
carried message).
-/

set_option maxRecDepth 8000

namespace Nabolag

/-- One outbound Slack Web API call, in the order the handler issues them.
`updateUsers` carries the exact comma-joined `users` argument the code sends
(`usergroups.users.update` is a full replace). -/
inductive ApiCall where
  | usersInfo (user : Option String)
  | listUsers (usergroup : String)
  | updateUsers (usergroup : String) (users : String)
  | convOpen (user : Option String)
  | postMessage (channel : Option String)
  | invite (channel : String) (user : String)
deriving DecidableEq

/-- `event.user` of the inbound payload: `id` may be absent, `deleted` is
read for truthiness only, `is_restricted` is tri-state (`=== false` is
checked, so absent and `true` must stay distinguishable). -/
structure SlackUser where
  id : Option String
  deleted : Bool
  is_restricted : Option Bool
deriving DecidableEq

/-- `payload.event`. -/
structure SlackEvent where
  type : Option String
  user : Option SlackUser
deriving DecidableEq

/-- The parsed inbound payload (fields the handlers read). -/
structure SlackPayload where
  type : Option String
  challenge : Option String
  event : Option SlackEvent
deriving DecidableEq

/-- Result record of `usergroups.users.update` (`{ok, error}`). -/
structure UpdResp where
  ok : Bool
  error : Option String
deriving DecidableEq

/-- One entry of `ugResults`: the JS object literals use exactly these
fields, absent fields are `none`. -/
structure UgResult where
  usergroup : String
  ok : Bool
  updated : Option Bool
  reason : Option String
  error : Option String
deriving DecidableEq

/-- `'0' ≤ c ≤ '9'`. -/
def isDigitChar (c : Char) : Bool := decide ('0' ≤ c) && decide (c ≤ '9')

/-- Decimal digits to a number, `none` on any non-digit. -/
def digitsVal : List Char → Nat → Option Nat
  | [], acc => some acc
  | c :: rest, acc =>
    if isDigitChar c then digitsVal rest (acc * 10 + (c.toNat - '0'.toNat))
    else none

/-- JS `Number(ts)` restricted to the (possibly negative) integer-literal
strings Slack sends; `none` stands for `NaN` (fractional, exponent, hex and
whitespace-padded numerals are outside the modelled domain).  The
surrounding replay check mirrors the JS comparison semantics of `NaN`
(every `>` comparison with `NaN` is false).  JS `Number("")` is `0`, but an
empty header is rejected as falsy before `Number` is ever applied, so the
empty string is unreachable here. -/
def jsNumber (s : String) : Option Int :=
  match s.data with
  | [] => none
  | '-' :: rest =>
    match rest with
    | [] => none
    | _ => (digitsVal rest 0).map (fun v => -(v : Int))
  | cs => (digitsVal cs 0).map (fun v => (v : Int))

/-- `Math.abs(now - Number(ts)) > 60 * 5` of the verifiers.  When `Number(ts)`
is `NaN` the JS comparison `NaN > 300` is `false`, so a non-numeric
timestamp is NOT rejected by this check. -/
def replayTooOld (nowSec : Int) (ts : String) : Bool :=
  match jsNumber ts with
  | some n => decide ((nowSec - n).natAbs > 300)
  | none => false

/-- `crypto.timingSafeEqual(Buffer.from(a), Buffer.from(b))`: throws when
the two UTF-8 buffers have different byte lengths, otherwise compares the
bytes in constant time (equal bytes ↔ equal strings). -/
def timingSafeEqualE (a b : String) : Except String Bool :=
  if a.utf8ByteSize = b.utf8ByteSize then .ok (a == b)
  else .error "Input buffers must have the same byte length"

/-- The signed base string and expected signature header value:
`"v0=" + hex(hmac_sha256(secret, "v0:" + ts + ":" + rawBody))`. -/
def expectedSig (hmac : String → String → String) (secret ts rawBody : String) : String :=
  "v0=" ++ hmac secret ("v0:" ++ ts ++ ":" ++ rawBody)

/-- `verifySlackRequest` of `src/api/events.js` (lines 94–117): fails closed
on a falsy secret or missing/falsy headers, rejects outside the 5-minute
replay window, and wraps `timingSafeEqual` in `try { … } catch { return
false }`. -/
def verifySlackRequest (hmac : String → String → String) (signingSecret : Option String)
    (ts sig : Option String) (rawBody : String) (nowSec : Int) : Bool :=
  match signingSecret with
  | none => false
  | some secret =>
    if secret == "" then false
    else
      match ts, sig with
      | some t, some s =>
        if t == "" || s == "" then false
        else if replayTooOld nowSec t then false
        else
          match timingSafeEqualE (expectedSig hmac secret t rawBody) s with
          | .ok b => b
          | .error _ => false
      | _, _ => false

/-- `verifySlackRequest` of `src/Auto User Group Adder/api/events.js`
(lines 18–39): same checks, but the `timingSafeEqual` call is NOT wrapped,
so a byte-length mismatch propagates as a thrown exception (`.error`). -/
def verifySlackRequestE (hmac : String → String → String) (signingSecret : Option String)
    (ts sig : Option String) (rawBody : String) (nowSec : Int) : Except String Bool :=
  match signingSecret with
  | none => .ok false
  | some secret =>
    if secret == "" then .ok false
    else
      match ts, sig with
      | some t, some s =>
        if t == "" || s == "" then .ok false
        else if replayTooOld nowSec t then .ok false
        else timingSafeEqualE (expectedSig hmac secret t rawBody) s
      | _, _ => .ok false

/-- The whitespace classes `String.prototype.trim` strips, restricted to
the ASCII ones (the configured ids are ASCII). -/
def jsWhitespace (c : Char) : Bool :=
  c = ' ' || c = '\t' || c = '\n' || c = '\r' || c = '\x0b' || c = '\x0c'

/-- `s.trim()`. -/
def jsTrim (s : String) : String :=
  ⟨((s.data.dropWhile jsWhitespace).reverse.dropWhile jsWhitespace).reverse⟩

/-- `s.split(',')` (structural; `"".split(',')` is `[""]`). -/
def splitCommaAux : List Char → List Char → List String
  | [], acc => [⟨acc.reverse⟩]
  | ',' :: rest, acc => (⟨acc.reverse⟩ : String) :: splitCommaAux rest []
  | c :: rest, acc => splitCommaAux rest (c :: acc)

def splitComma (s : String) : List String := splitCommaAux s.data []

/-- `(env || '').split(',').map(s => s.trim()).filter(Boolean)`: the
comma-separated id lists (`USERGROUP_IDS`, `CHANNEL_IDS`). -/
def parseIds (env : Option String) : List String :=
  ((splitComma (env.getD "")).map jsTrim).filter (fun s => !(s == ""))

/-- `xs.join(",")` (structural). -/
def joinComma : List String → String
  | [] => ""
  | [x] => x
  | x :: rest => x ++ "," ++ joinComma rest

/-- `s.startsWith(pre)`. -/
def listStartsWith : List Char → List Char → Bool
  | [], _ => true
  | _ :: _, [] => false
  | a :: as, b :: bs => a = b && listStartsWith as bs

def jsStartsWith (s pre : String) : Bool := listStartsWith pre.data s.data

/-- `[...clean, userId].join(",")`: `Array.prototype.join` renders an
`undefined` element as the empty string. -/
def joinUsers (users : List String) (userId : Option String) : String :=
  joinComma (users ++ [userId.getD ""])

/-- The shared classification (`triggeredBy`) of the `src/api` and
`src/unnamed` handlers: `team_join` always; `user_change` only for a present
user with falsy `deleted` and `is_restricted === false`; otherwise the falsy
sentinel `""`. -/
def userQualifies (u : Option SlackUser) : Bool :=
  match u with
  | some u => !u.deleted && (u.is_restricted == some false)
  | none => false

def triggeredBy (e : SlackEvent) : String :=
  if e.type == some "team_join" then "team_join"
  else if e.type == some "user_change" && userQualifies e.user then
    "user_change (reactivated)"
  else ""

/-! ## The in-memory deduplication map

`recentlyProcessed` is a JS `Map` keyed by `userId` (which can be
`undefined`, a legal `Map` key).  `Map.set` updates an existing key in
place and appends a new one; deleting other entries while iterating
`entries()` visits every entry, so the sweep is a filter. -/

abbrev DedupMap := List (Option String × Int)

def mapGet : DedupMap → Option String → Option Int
  | [], _ => none
  | (k', v) :: rest, k => if k' = k then some v else mapGet rest k

def mapSet : DedupMap → Option String → Int → DedupMap
  | [], k, v => [(k, v)]
  | (k', v') :: rest, k, v =>
    if k' = k then (k, v) :: rest else (k', v') :: mapSet rest k v

/-- `DUPLICATE_WINDOW` (30 s, in milliseconds). -/
def DUPLICATE_WINDOW : Int := 30000

/-- The lazy expiry after stamping: delete every entry with
`now - timestamp > DUPLICATE_WINDOW`. -/
def sweep (nowMs : Int) (m : DedupMap) : DedupMap :=
  m.filter (fun p => !(decide (nowMs - p.2 > DUPLICATE_WINDOW)))

/-! ## The signature-verifying handler of `src/api/events.js` (lines 225–393) -/

namespace Main

/-- The Slack Web API as an oracle, one field per method the handler calls.
`usersInfoDeleted` returns the truthiness of `userInfo.user?.deleted`;
`convOpen` returns `(dmChannel.ok, dmChannel.channel?.id)`. -/
structure SlackApi where
  usersInfoDeleted : Option String → Except String Bool
  listUsers : String → Except String (Option (List String))
  updateUsers : String → String → Except String UpdResp
  convOpen : Option String → Except String (Bool × Option String)
  postMessage : Option String → Except String UpdResp

/-- The cleanup predicate of lines 338–344: keep an id only when it is
truthy, `startsWith('U')`, and `length > 10` (the ids are ASCII, so the
UTF-16 length of the JS string equals the Lean codepoint length). -/
def validId (id : String) : Bool :=
  !(id == "") && jsStartsWith id "U" && decide (id.length > 10)

/-- `current.users && current.users.includes(userId)`: the membership test
shared by the three looping variants (a JS empty array is truthy, so only a
missing `users` field or a missing user id makes it false). -/
def memberAlready (usersOpt : Option (List String)) (userId : Option String) : Bool :=
  match usersOpt, userId with
  | some us, some uid => us.contains uid
  | _, _ => false

/-- The body of one iteration of the `for (const ug of USERGROUP_IDS)` loop
(lines 326–368): list the group, skip if the target user is already a
member, otherwise replace the membership with the cleaned list plus the
user.  Returns the pushed `ugResults` entry, the calls issued, and whether
`ug` was appended to `addedToGroups`. -/
def processGroup (api : SlackApi) (userId : Option String) (ug : String) :
    UgResult × List ApiCall × Bool :=
  match api.listUsers ug with
  | .error msg => (⟨ug, false, none, none, some msg⟩, [.listUsers ug], false)
  | .ok usersOpt =>
    if memberAlready usersOpt userId then
      (⟨ug, true, some false, some "already a member", none⟩, [.listUsers ug], false)
    else
      let clean := (usersOpt.getD []).filter validId
      let arg := joinUsers clean userId
      match api.updateUsers ug arg with
      | .error msg =>
        (⟨ug, false, none, none, some msg⟩, [.listUsers ug, .updateUsers ug arg], false)
      | .ok r =>
        if r.ok then
          (⟨ug, true, some true, none, none⟩, [.listUsers ug, .updateUsers ug arg], true)
        else
          (⟨ug, false, none, none, r.error⟩, [.listUsers ug, .updateUsers ug arg], false)

/-- Accumulator of the sequential loop: `ugResults`, the outbound calls in
order, and `addedToGroups`. -/
structure LoopAcc where
  results : List UgResult
  calls : List ApiCall
  added : List String
deriving DecidableEq

def stepGroup (api : SlackApi) (userId : Option String) (acc : LoopAcc) (ug : String) :
    LoopAcc :=
  let r := processGroup api userId ug
  ⟨acc.results ++ [r.1], acc.calls ++ r.2.1, acc.added ++ if r.2.2 then [ug] else []⟩

def runGroups (api : SlackApi) (userId : Option String) (groups : List String) : LoopAcc :=
  groups.foldl (stepGroup api userId) ⟨[], [], []⟩

/-- Return value of `sendWelcomeMessage` (its `ts` field is never read and
not modelled). -/
structure WelcomeResult where
  ok : Bool
  channel : Option String
  error : Option String
deriving DecidableEq

/-- `sendWelcomeMessage` (lines 137–223): try `conversations.open`; on a
throw, an `ok:false` response, or a missing `channel.id` (whose dereference
raises a `TypeError` caught by the same inner handler) fall back to the
user id as the channel; then `chat.postMessage`. -/
def sendWelcomeMessage (api : SlackApi) (userId : Option String) :
    WelcomeResult × List ApiCall :=
  let dm : Option String :=
    match api.convOpen userId with
    | .ok (true, some ch) => some ch
    | _ => userId
  match api.postMessage dm with
  | .error msg => (⟨false, none, some msg⟩, [.convOpen userId, .postMessage dm])
  | .ok r =>
    if r.ok then (⟨true, dm, none⟩, [.convOpen userId, .postMessage dm])
    else (⟨false, none, r.error⟩, [.convOpen userId, .postMessage dm])

/-- The JSON response bodies the handler builds, with exactly the fields of
the corresponding object literals (`none` = field absent; the success body
always carries `welcomeMessage`, `null` when no message was sent). -/
structure JsonResp where
  ok : Bool
  userId : Option String
  skipped : Option Bool
  reason : Option String
  warning : Option String
  ugResults : Option (List UgResult)
  processedEvent : Option String
  welcomeMessage : Option WelcomeResult
deriving DecidableEq

inductive RespBody where
  | text (s : String)
  | json (j : JsonResp)
deriving DecidableEq

/-- An HTTP response: status, whether `content-type: text/plain` was set
explicitly, and the body. -/
structure HttpResponse where
  status : Nat
  plainHeader : Bool
  body : RespBody
deriving DecidableEq

def jsonBody (j : JsonResp) : RespBody := .json j

/-- The `skipped`/`recently_processed` short-circuit body (line 277). -/
def skippedResp (userId : Option String) : HttpResponse :=
  ⟨200, false, .json ⟨true, userId, some true, some "recently_processed", none, none, none, none⟩⟩

/-- The `No usergroups configured` warning body (line 298). -/
def noGroupsResp (userId : Option String) : HttpResponse :=
  ⟨200, false, .json ⟨true, userId, none, none, some "No usergroups configured", none, none, none⟩⟩

/-- The `User is deleted` warning body (line 315). -/
def deletedResp (userId : Option String) : HttpResponse :=
  ⟨200, false, .json ⟨true, userId, none, none, some "User is deleted", none, none, none⟩⟩

/-- Lines 300–392: the liveness probe (`users.info`, failure to fetch is
non-fatal), the membership loop, and the optional welcome message, ending
in the success JSON.  Runs after classification and deduplication. -/
def processUser (api : SlackApi) (userId : Option String) (groups : List String)
    (trig : String) : HttpResponse × List ApiCall :=
  match api.usersInfoDeleted userId with
  | .ok true => (deletedResp userId, [.usersInfo userId])
  | _ =>
    let acc := runGroups api userId groups
    let wm : Option WelcomeResult × List ApiCall :=
      if acc.added.isEmpty then (none, [])
      else
        let w := sendWelcomeMessage api userId
        (some w.1, w.2)
    (⟨200, false,
       .json ⟨true, userId, none, none, none, some acc.results, some trig, wm.1⟩⟩,
     .usersInfo userId :: (acc.calls ++ wm.2))

/-- Lines 247–392: everything after the challenge check.  Returns the
response, the outbound calls, and the final state of `recentlyProcessed`. -/
def dispatchEvent (api : SlackApi) (usergroupIdsEnv : Option String) (nowMs : Int)
    (dedup : DedupMap) (payload : SlackPayload) :
    HttpResponse × List ApiCall × DedupMap :=
  match payload.event with
  | none => (⟨200, false, .text "No event"⟩, [], dedup)
  | some event =>
    let userId := event.user.bind (fun u => u.id)
    let groups := parseIds usergroupIdsEnv
    let trig := triggeredBy event
    if trig == "" then (⟨200, false, .text "Skipped"⟩, [], dedup)
    else
      let recentHit :=
        match mapGet dedup userId with
        | some last => decide (nowMs - last < DUPLICATE_WINDOW)
        | none => false
      if recentHit then (skippedResp userId, [], dedup)
      else
        let dedup2 := sweep nowMs (mapSet dedup userId nowMs)
        if groups.isEmpty then (noGroupsResp userId, [], dedup2)
        else
          let pr := processUser api userId groups trig
          (pr.1, pr.2, dedup2)

/-- The exported handler (lines 225–393): signature gate, `url_verification`
challenge, then event dispatch.  `rawBody` is the exact byte string the
signature covers; `payload` is its JSON parse (parsing itself is out of
scope, the claims quantify over parsed payloads). -/
def handler (hmac : String → String → String) (signingSecret usergroupIdsEnv : Option String)
    (api : SlackApi) (nowSec nowMs : Int) (dedup : DedupMap)
    (rawBody : String) (ts sig : Option String) (payload : SlackPayload) :
    HttpResponse × List ApiCall × DedupMap :=
  if !(verifySlackRequest hmac signingSecret ts sig rawBody nowSec) then
    (⟨401, false, .text "verification failed"⟩, [], dedup)
  else if payload.type == some "url_verification" && !(payload.challenge.getD "" == "") then
    (⟨200, true, .text (payload.challenge.getD "")⟩, [], dedup)
  else
    dispatchEvent api usergroupIdsEnv nowMs dedup payload

end Main

/-! ## The per-usergroup loop of `src/unnamed/part_000` (lines 45–73) -/

namespace P0

/-- `Array.from(new Set(xs))`: deduplicate keeping the first occurrence. -/
def jsSetDedup (l : List String) : List String :=
  l.foldl (fun acc x => if acc.contains x then acc else acc ++ [x]) []

/-- One iteration of the `part_000` loop: no cleanup filter, the update
list is `Array.from(new Set([...current.users, userId]))`, and the pushed
entry after a non-throwing update is
`{usergroup, ok: result.ok, updated: true, error: result.error}` —
`updated` is `true` regardless of `result.ok`. -/
def processGroup (api : Main.SlackApi) (userId : Option String) (ug : String) :
    UgResult × List ApiCall :=
  match api.listUsers ug with
  | .error msg => (⟨ug, false, none, none, some msg⟩, [.listUsers ug])
  | .ok usersOpt =>
    if Main.memberAlready usersOpt userId then
      (⟨ug, true, some false, some "already a member", none⟩, [.listUsers ug])
    else
      let arg := joinComma (jsSetDedup ((usersOpt.getD []) ++ [userId.getD ""]))
      match api.updateUsers ug arg with
      | .error msg =>
        (⟨ug, false, none, none, some msg⟩, [.listUsers ug, .updateUsers ug arg])
      | .ok r =>
        (⟨ug, r.ok, some true, none, r.error⟩, [.listUsers ug, .updateUsers ug arg])

def runGroups (api : Main.SlackApi) (userId : Option String) (groups : List String) :
    List UgResult × List ApiCall :=
  groups.foldl
    (fun acc ug =>
      let r := processGroup api userId ug
      (acc.1 ++ [r.1], acc.2 ++ r.2))
    ([], [])

end P0

/-! ## The per-usergroup loop of the third `src/api/events.js` handler
(lines 483–522) -/

namespace V3

/-- The cleanup predicate of lines 496–503: additionally drops the
configured bot user id (`process.env.BOT_USER_ID || 'U09KDFQH3EF'`). -/
def validId (botUserId : String) (id : String) : Bool :=
  !(id == "") && !(id == botUserId) && jsStartsWith id "U" && decide (id.length > 10)

/-- One iteration of the third variant's loop: cleanup filter including the
bot id, and the entry pushed after a non-throwing update is
`{usergroup, ok: result.ok, updated: true}` — no `error` field and
`updated: true` even when `result.ok` is `false`. -/
def processGroup (api : Main.SlackApi) (botUserId : String) (userId : Option String)
    (ug : String) : UgResult × List ApiCall :=
  match api.listUsers ug with
  | .error msg => (⟨ug, false, none, none, some msg⟩, [.listUsers ug])
  | .ok usersOpt =>
    if Main.memberAlready usersOpt userId then
      (⟨ug, true, some false, some "already a member", none⟩, [.listUsers ug])
    else
      let clean := (usersOpt.getD []).filter (validId botUserId)
      let arg := joinUsers clean userId
      match api.updateUsers ug arg with
      | .error msg =>
        (⟨ug, false, none, none, some msg⟩, [.listUsers ug, .updateUsers ug arg])
      | .ok r =>
        (⟨ug, r.ok, some true, none, none⟩, [.listUsers ug, .updateUsers ug arg])

end V3

/-! ## `src/Auto User Group Adder/api/events.js` -/

namespace Auga

/-- The parsed JSON of the raw `fetch`-based `slackApi('usergroups.users.list', …)`:
a non-ok platform response does NOT throw here, only a transport failure
does (the surrounding code has no per-iteration catch, so a throw aborts
the whole loop and surfaces as the handler's 500). -/
structure ListResp where
  ok : Bool
  users : Option (List String)
  error : Option String
deriving DecidableEq

structure AugaApi where
  listUsers : String → Except String ListResp
  updateUsers : String → String → Except String UpdResp
  /-- `slackApi('conversations.invite', …).catch(e => ({ok:false, error:e.message}))`:
  total by construction. -/
  invite : String → String → UpdResp

/-- The loop of `addUserToUsergroups` (lines 60–79): returns the `results`
array (or the thrown message) together with every call issued before the
throw, if any. -/
def addLoop (api : AugaApi) (userId : String) :
    List String → Except String (List UgResult) × List ApiCall
  | [] => (.ok [], [])
  | ug :: rest =>
    match api.listUsers ug with
    | .error e => (.error e, [.listUsers ug])
    | .ok lr =>
      if !lr.ok then
        let r := addLoop api userId rest
        (r.1.map (fun tl => ⟨ug, false, none, none, lr.error⟩ :: tl),
         .listUsers ug :: r.2)
      else
        let current := lr.users.getD []
        if current.contains userId then
          let r := addLoop api userId rest
          (r.1.map (fun tl => ⟨ug, true, some false, some "already a member", none⟩ :: tl),
           .listUsers ug :: r.2)
        else
          let arg := joinComma (current ++ [userId])
          match api.updateUsers ug arg with
          | .error e => (.error e, [.listUsers ug, .updateUsers ug arg])
          | .ok ur =>
            let entry : UgResult :=
              if ur.ok then ⟨ug, true, some true, none, none⟩
              else ⟨ug, false, none, none, ur.error⟩
            let r := addLoop api userId rest
            (r.1.map (fun tl => entry :: tl),
             .listUsers ug :: .updateUsers ug arg :: r.2)

/-- `addUserToUsergroups` returns `{skipped:true}` on an empty configured
list, otherwise the per-group results. -/
inductive UgOutcome where
  | skipped
  | results (rs : List UgResult)
deriving DecidableEq

def addUserToUsergroups (api : AugaApi) (usergroupIdsEnv : Option String)
    (userId : String) : Except String UgOutcome × List ApiCall :=
  let ids := parseIds usergroupIdsEnv
  if ids.isEmpty then (.ok .skipped, [])
  else
    let r := addLoop api userId ids
    (r.1.map .results, r.2)

structure ChResult where
  channel : String
  ok : Bool
  invited : Option Bool
  error : Option String
deriving DecidableEq

inductive ChOutcome where
  | skipped
  | results (rs : List ChResult)
deriving DecidableEq

/-- `inviteUserToChannels` (lines 82–99): every invite failure is downgraded
to a per-channel error entry. -/
def inviteUserToChannels (api : AugaApi) (channelIdsEnv : Option String)
    (userId : String) : ChOutcome × List ApiCall :=
  let ids := parseIds channelIdsEnv
  if ids.isEmpty then (.skipped, [])
  else
    (.results (ids.map (fun ch =>
       let r := api.invite ch userId
       if r.ok then ⟨ch, true, some true, none⟩ else ⟨ch, false, none, r.error⟩)),
     ids.map (fun ch => .invite ch userId))

inductive Body where
  | text (s : String)
  | json (ok : Bool) (user : String) (usergroups : UgOutcome) (channels : ChOutcome)
  | errJson (msg : String)
deriving DecidableEq

structure Response where
  status : Nat
  plainHeader : Bool
  body : Body
deriving DecidableEq

/-- `module.exports` (lines 101–151): verification (whose throw the
top-level catch converts to a 500), challenge, the `event_callback` gate,
and the `team_join` work.  The success JSON is
`{ok:true, user, usergroups, channels}`. -/
def handler (hmac : String → String → String)
    (signingSecret usergroupIdsEnv channelIdsEnv : Option String) (api : AugaApi)
    (nowSec : Int) (rawBody : String) (ts sig : Option String)
    (payload : SlackPayload) : Response × List ApiCall :=
  match verifySlackRequestE hmac signingSecret ts sig rawBody nowSec with
  | .error msg => (⟨500, false, .errJson msg⟩, [])
  | .ok false => (⟨401, false, .text "verification failed"⟩, [])
  | .ok true =>
    if payload.type == some "url_verification" && !(payload.challenge.getD "" == "") then
      (⟨200, true, .text (payload.challenge.getD "")⟩, [])
    else if !(payload.type == some "event_callback") then
      (⟨200, false, .text "ok"⟩, [])
    else
      let etype := payload.event.bind (fun e => e.type)
      let euid := (payload.event.bind (fun e => e.user)).bind (fun u => u.id)
      match etype, euid with
      | some "team_join", some uid =>
        if uid == "" then (⟨200, false, .text "ignored"⟩, [])
        else
          let ugr := addUserToUsergroups api usergroupIdsEnv uid
          match ugr.1 with
          | .error msg => (⟨500, false, .errJson msg⟩, ugr.2)
          | .ok ugo =>
            let chr := inviteUserToChannels api channelIdsEnv uid
            (⟨200, false, .json true uid ugo chr.1⟩, ugr.2 ++ chr.2)
      | _, _ => (⟨200, false, .text "ignored"⟩, [])

end Auga

/-! ## Auxiliary lemmas -/

theorem expectedSig_ne_empty (hmac : String → String → String) (sec t b : String) :
    expectedSig hmac sec t b ≠ "" := by
  intro h
  have hl := congrArg String.length h
  rw [expectedSig, String.length_append] at hl
  have h3 : ("v0=" : String).length = 3 := rfl
  have h0 : ("" : String).length = 0 := rfl
  rw [h3, h0] at hl
  omega

theorem jsNumber_empty : jsNumber "" = none := rfl

theorem beq_false_of_ne {α : Type} [BEq α] [LawfulBEq α] {a b : α} (h : a ≠ b) :
    (a == b) = false := by
  cases hab : a == b
  · rfl
  · exact absurd (eq_of_beq hab) h

/-- Evaluation of the catching verifier once the secret and both headers are
present and truthy and the replay window passed: the result is the
constant-time comparison, with a thrown length mismatch converted to
`false`. -/
theorem verify_some_eval (hmac : String → String → String) (sec t sig rawBody : String)
    (nowSec : Int) (hsec : sec ≠ "") (ht : t ≠ "")
    (hwin : replayTooOld nowSec t = false) :
    verifySlackRequest hmac (some sec) (some t) (some sig) rawBody nowSec =
      (sig == expectedSig hmac sec t rawBody) := by
  have hene := expectedSig_ne_empty hmac sec t rawBody
  by_cases hs : sig = ""
  · subst hs
    rw [beq_false_of_ne (Ne.symm hene)]
    simp [verifySlackRequest, beq_false_of_ne hsec, beq_false_of_ne ht, hwin]
  · simp only [verifySlackRequest, beq_false_of_ne hsec, beq_false_of_ne ht,
      beq_false_of_ne hs, hwin, Bool.or_self, Bool.or_false, Bool.false_eq_true,
      if_false, ite_false]
    unfold timingSafeEqualE
    by_cases hb : (expectedSig hmac sec t rawBody).utf8ByteSize = sig.utf8ByteSize
    · rw [if_pos hb]
      show (expectedSig hmac sec t rawBody == sig) = (sig == expectedSig hmac sec t rawBody)
      rw [Bool.eq_iff_iff]
      constructor
      · intro hh; exact (beq_iff_eq).mpr ((beq_iff_eq).mp hh).symm
      · intro hh; exact (beq_iff_eq).mpr ((beq_iff_eq).mp hh).symm
    · rw [if_neg hb]
      show false = (sig == expectedSig hmac sec t rawBody)
      symm
      exact beq_false_of_ne fun heq => hb (by rw [heq])

/-- Same evaluation for the non-catching verifier: the result is exactly
`timingSafeEqual`, throw included. -/
theorem verifyE_some_eval (hmac : String → String → String) (sec t sig rawBody : String)
    (nowSec : Int) (hsec : sec ≠ "") (ht : t ≠ "") (hs : sig ≠ "")
    (hwin : replayTooOld nowSec t = false) :
    verifySlackRequestE hmac (some sec) (some t) (some sig) rawBody nowSec =
      timingSafeEqualE (expectedSig hmac sec t rawBody) sig := by
  simp [verifySlackRequestE, beq_false_of_ne hsec, beq_false_of_ne ht,
    beq_false_of_ne hs, hwin]

/-- A verifier success forces the exact expected signature header. -/
theorem verify_true_sig (hmac : String → String → String) (secret ts sig : Option String)
    (rawBody : String) (nowSec : Int) :
    verifySlackRequest hmac secret ts sig rawBody nowSec = true →
    ∃ sec t, secret = some sec ∧ ts = some t ∧
      sig = some (expectedSig hmac sec t rawBody) := by
  intro h
  rcases secret with _ | sec
  · exact absurd h (by simp [verifySlackRequest])
  by_cases hsec : sec = ""
  · subst hsec
    exact absurd h (by simp [verifySlackRequest])
  rcases ts with _ | t
  · exact absurd h (by simp [verifySlackRequest])
  rcases sig with _ | s
  · exact absurd h (by simp [verifySlackRequest])
  refine ⟨sec, t, rfl, rfl, ?_⟩
  by_cases ht : t = ""
  · subst ht
    exact absurd h (by simp [verifySlackRequest])
  cases hwin : replayTooOld nowSec t with
  | true => exact absurd h (by simp [verifySlackRequest, hwin])
  | false =>
    rw [verify_some_eval hmac sec t s rawBody nowSec hsec ht hwin] at h
    exact congrArg some ((beq_iff_eq).mp h)

theorem verifyE_true_sig (hmac : String → String → String) (secret ts sig : Option String)
    (rawBody : String) (nowSec : Int) :
    verifySlackRequestE hmac secret ts sig rawBody nowSec = .ok true →
    ∃ sec t, secret = some sec ∧ ts = some t ∧
      sig = some (expectedSig hmac sec t rawBody) := by
  intro h
  rcases secret with _ | sec
  · exact absurd h (by simp [verifySlackRequestE])
  by_cases hsec : sec = ""
  · subst hsec
    exact absurd h (by simp [verifySlackRequestE])
  rcases ts with _ | t
  · exact absurd h (by simp [verifySlackRequestE])
  rcases sig with _ | s
  · exact absurd h (by simp [verifySlackRequestE])
  refine ⟨sec, t, rfl, rfl, ?_⟩
  by_cases ht : t = ""
  · subst ht
    exact absurd h (by simp [verifySlackRequestE])
  by_cases hs : s = ""
  · subst hs
    exact absurd h (by simp [verifySlackRequestE])
  cases hwin : replayTooOld nowSec t with
  | true => exact absurd h (by simp [verifySlackRequestE, hwin])
  | false =>
    rw [verifyE_some_eval hmac sec t s rawBody nowSec hsec ht hs hwin] at h
    unfold timingSafeEqualE at h
    by_cases hb : (expectedSig hmac sec t rawBody).utf8ByteSize = s.utf8ByteSize
    · rw [if_pos hb] at h
      simp only [Except.ok.injEq] at h
      exact congrArg some ((beq_iff_eq).mp h).symm
    · rw [if_neg hb] at h
      exact absurd h (by simp)

/-! Dedup-map lemmas. -/

theorem mapGet_mapSet_self (m : DedupMap) (k : Option String) (v : Int) :
    mapGet (mapSet m k v) k = some v := by
  induction m with
  | nil => simp [mapSet, mapGet]
  | cons p rest ih =>
    by_cases h : p.1 = k
    · simp [mapSet, h, mapGet]
    · simp [mapSet, h, mapGet, ih]

/-- The freshly written stamp survives the sweep: entries in front of the
first `k`-entry have other keys, and the stamp itself is `nowMs`-fresh. -/
theorem mapGet_sweep_mapSet (m : DedupMap) (k : Option String) (nowMs : Int) :
    mapGet (sweep nowMs (mapSet m k nowMs)) k = some nowMs := by
  induction m with
  | nil => simp [mapSet, sweep, mapGet, DUPLICATE_WINDOW]
  | cons p rest ih =>
    by_cases h : p.1 = k
    · simp [mapSet, h, sweep, mapGet, DUPLICATE_WINDOW]
    · simp only [mapSet, h, if_neg h, sweep, List.filter]
      by_cases hk : (nowMs - p.2 > DUPLICATE_WINDOW)
      · simpa [hk, sweep] using ih
      · simpa [hk, sweep, mapGet, h] using ih

/-- After the sweep every surviving entry is within the window. -/
theorem sweep_fresh (nowMs : Int) (m : DedupMap) :
    ∀ p ∈ sweep nowMs m, nowMs - p.2 ≤ DUPLICATE_WINDOW := by
  intro p hp
  have := List.of_mem_filter hp
  simpa using this

/-! ## Handler-reduction helper lemmas -/

/-- With a passing signature and no `challenge` field, the `src/api` handler
is the event dispatcher. -/
theorem handler_eq_dispatch (hmac : String → String → String)
    (secret ugEnv : Option String) (api : Main.SlackApi) (nowSec nowMs : Int)
    (dedup : DedupMap) (rawBody : String) (ts sig : Option String)
    (payload : SlackPayload)
    (hv : verifySlackRequest hmac secret ts sig rawBody nowSec = true)
    (hch : payload.challenge = none) :
    Main.handler hmac secret ugEnv api nowSec nowMs dedup rawBody ts sig payload =
      Main.dispatchEvent api ugEnv nowMs dedup payload := by
  simp [Main.handler, hv, hch]

/-- A dedup hit short-circuits the dispatcher: `skipped` JSON, no calls,
map untouched. -/
theorem dispatch_skips (api : Main.SlackApi) (ugEnv : Option String) (nowMs : Int)
    (dedup : DedupMap) (payload : SlackPayload) (ev : SlackEvent) (last : Int)
    (hev : payload.event = some ev) (htrig : triggeredBy ev ≠ "")
    (hlast : mapGet dedup (ev.user.bind (fun u => u.id)) = some last)
    (hlt : nowMs - last < DUPLICATE_WINDOW) :
    Main.dispatchEvent api ugEnv nowMs dedup payload =
      (⟨200, false, .json ⟨true, ev.user.bind (fun u => u.id), some true,
          some "recently_processed", none, none, none, none⟩⟩, [], dedup) := by
  simp [Main.dispatchEvent, hev, beq_false_of_ne htrig, hlast, hlt, Main.skippedResp]

/-- A dedup miss (re)stamps the record and sweeps: whatever the oracle does
afterwards, the returned map is the swept, freshly-stamped one. -/
theorem dispatch_map_after_stamp (api : Main.SlackApi) (ugEnv : Option String)
    (nowMs : Int) (dedup : DedupMap) (payload : SlackPayload) (ev : SlackEvent)
    (hev : payload.event = some ev) (htrig : triggeredBy ev ≠ "")
    (hmiss : ∀ last, mapGet dedup (ev.user.bind (fun u => u.id)) = some last →
        DUPLICATE_WINDOW ≤ nowMs - last) :
    (Main.dispatchEvent api ugEnv nowMs dedup payload).2.2 =
      sweep nowMs (mapSet dedup (ev.user.bind (fun u => u.id)) nowMs) := by
  cases hm : mapGet dedup (ev.user.bind (fun u => u.id)) with
  | none =>
    simp only [Main.dispatchEvent, hev, beq_false_of_ne htrig, Bool.false_eq_true,
      if_false, hm]
    split
    · rfl
    · rfl
  | some last =>
    have hd : decide (nowMs - last < DUPLICATE_WINDOW) = false := by
      simp only [decide_eq_false_iff_not, not_lt]
      exact hmiss last hm
    simp only [Main.dispatchEvent, hev, beq_false_of_ne htrig, Bool.false_eq_true,
      if_false, hm, hd]
    split
    · rfl
    · rfl

/-! ## Concrete fixtures for counterexamples and witnesses -/

/-- A concrete stand-in HMAC: always the digest `"ff"` (every statement
about the handlers is uniform in the HMAC function, so any instance will
do for closed evaluations). -/
def cHmac : String → String → String := fun _ _ => "ff"

/-- A concrete `src/api` oracle: the user is alive, every group's single
member is `"U0EXISTING01"`, every update and message succeeds. -/
def cMainApi : Main.SlackApi :=
  ⟨fun _ => .ok false,
   fun _ => .ok (some ["U0EXISTING01"]),
   fun _ _ => .ok ⟨true, none⟩,
   fun _ => .ok (true, some "D0CHANNEL001"),
   fun _ => .ok ⟨true, none⟩⟩

/-- A concrete Auto User Group Adder oracle of the same shape. -/
def cAugaApi : Auga.AugaApi :=
  ⟨fun _ => .ok ⟨true, some ["U0EXISTING01"], none⟩,
   fun _ _ => .ok ⟨true, none⟩,
   fun _ _ => ⟨true, none⟩⟩

/-- A concrete actionable `team_join` event payload. -/
def cPayload : SlackPayload :=
  ⟨some "event_callback", none,
   some ⟨some "team_join", some ⟨some "U0NEWUSER001", false, none⟩⟩⟩

/-! ## Claim theorems -/

/-- C2: the signature verifier returns `false` when the signing secret is
not configured, the timestamp header is absent, or the signature header is
absent; it returns `false` when `|now_seconds - timestamp| > 300`; in the
remaining case it returns `true` exactly when the supplied signature equals
`"v0=" + hex(hmac_sha256(secret, "v0:" + timestamp + ":" + rawBody))` (so a
timestamp exactly 300 seconds away is accepted, `≤` being the complement of
the code's `>` rejection); the same success characterisation holds for the
Auto User Group Adder verifier, which never RETURNS `true` on a mismatch
(on a byte-length mismatch it throws rather than returning). -/
theorem C2_signature_verifier_spec (hmac : String → String → String) (rawBody : String)
    (nowSec n : Int) (tsS : String) (hts : jsNumber tsS = some n) :
    (∀ ts sig, verifySlackRequest hmac none ts sig rawBody nowSec = false) ∧
    (∀ sec sig, verifySlackRequest hmac (some sec) none sig rawBody nowSec = false) ∧
    (∀ sec ts, verifySlackRequest hmac (some sec) ts none rawBody nowSec = false) ∧
    (∀ sec sig, 300 < (nowSec - n).natAbs →
        verifySlackRequest hmac (some sec) (some tsS) sig rawBody nowSec = false) ∧
    (∀ sec sig, sec ≠ "" → (nowSec - n).natAbs ≤ 300 →
        (verifySlackRequest hmac (some sec) (some tsS) (some sig) rawBody nowSec = true ↔
          sig = expectedSig hmac sec tsS rawBody)) ∧
    (∀ sec sig, sec ≠ "" → (nowSec - n).natAbs ≤ 300 →
        (verifySlackRequestE hmac (some sec) (some tsS) (some sig) rawBody nowSec = .ok true ↔
          sig = expectedSig hmac sec tsS rawBody)) := by
  have htne : tsS ≠ "" := by
    intro he
    rw [he, jsNumber_empty] at hts
    exact Option.noConfusion hts
  have hwinof : ∀ nSec : Int, (nSec - n).natAbs ≤ 300 → replayTooOld nSec tsS = false := by
    intro nSec h
    rw [replayTooOld, hts]
    simp only [decide_eq_false_iff_not]
    omega
  refine ⟨fun _ _ => rfl, ?_, ?_, ?_, ?_, ?_⟩
  · intro sec sig
    rcases sig with _ | s <;> simp [verifySlackRequest]
  · intro sec ts
    rcases ts with _ | t <;> simp [verifySlackRequest]
  · intro sec sig h300
    have hwin : replayTooOld nowSec tsS = true := by
      rw [replayTooOld, hts]
      simp only [decide_eq_true_eq]
      omega
    rcases sig with _ | s
    · simp [verifySlackRequest]
    · simp [verifySlackRequest, hwin]
  · intro sec sig hsec h300
    rw [verify_some_eval hmac sec tsS sig rawBody nowSec hsec htne (hwinof nowSec h300)]
    exact beq_iff_eq
  · intro sec sig hsec h300
    have hene := expectedSig_ne_empty hmac sec tsS rawBody
    by_cases hs : sig = ""
    · subst hs
      constructor
      · intro h
        exact absurd h (by
          simp [verifySlackRequestE, beq_false_of_ne hsec, beq_false_of_ne htne])
      · intro h
        exact absurd h.symm hene
    · rw [verifyE_some_eval hmac sec tsS sig rawBody nowSec hsec htne hs
        (hwinof nowSec h300)]
      unfold timingSafeEqualE
      by_cases hb : (expectedSig hmac sec tsS rawBody).utf8ByteSize = sig.utf8ByteSize
      · rw [if_pos hb]
        constructor
        · intro h
          simp only [Except.ok.injEq] at h
          exact ((beq_iff_eq).mp h).symm
        · intro h
          subst h
          simp
      · rw [if_neg hb]
        constructor
        · intro h
          exact absurd h (by simp)
        · intro h
          exact absurd (congrArg String.utf8ByteSize h.symm) hb

/-- C2 witness: at a concrete secret, timestamp exactly 300 seconds old and
the exact expected signature, the verifier accepts. -/
theorem C2_signature_verifier_spec_witness :
    jsNumber "100" = some 100 ∧ (400 - 100 : Int).natAbs ≤ 300 ∧
    (verifySlackRequest (fun _ _ => "ff") (some "sec") (some "100")
        (some "v0=ff") "body" 400 = true ↔
      "v0=ff" = expectedSig (fun _ _ => "ff") "sec" "100" "body") :=
  ⟨by decide, by decide,
   (C2_signature_verifier_spec (fun _ _ => "ff") "body" 400 100 "100"
       (by decide)).2.2.2.2.1 "sec" "v0=ff" (by decide) (by decide)⟩

/-- C1 counterexample: a request whose supplied signature (`"x"`) does not
match the computed one (`"v0=ff"`) is answered by the Auto User Group Adder
handler with HTTP 500, not 401 — `crypto.timingSafeEqual` throws on the
byte-length mismatch and the top-level catch produces the 500 — refuting
the claim's "responds with HTTP status 401" (zero outbound calls do hold). -/
theorem C1_counterexample :
    (Auga.handler cHmac (some "s") (some "S1") none cAugaApi 0 "body" (some "0")
        (some "x") cPayload).1.status = 500 ∧
    ¬((Auga.handler cHmac (some "s") (some "S1") none cAugaApi 0 "body" (some "0")
        (some "x") cPayload).1.status = 401) ∧
    (Auga.handler cHmac (some "s") (some "S1") none cAugaApi 0 "body" (some "0")
        (some "x") cPayload).2 = [] :=
  ⟨rfl, by decide, rfl⟩

/-- C1 (amended): for every request whose signature header is missing or
whose supplied signature differs from the computed one, neither handler
makes any outbound API call; the `src/api` handler always answers 401; the
Auto User Group Adder handler answers 401 whenever the mismatched signature
has the computed signature's byte length (or verification fails before the
compare), but a mismatched signature of a different byte length makes its
uncaught `timingSafeEqual` throw and is answered 500. -/
theorem C1_amended (hmac : String → String → String)
    (secret ugEnv chEnv : Option String) (mapi : Main.SlackApi) (aapi : Auga.AugaApi)
    (nowSec nowMs : Int) (dedup : DedupMap) (rawBody : String)
    (ts sig : Option String) (payload : SlackPayload)
    (hbad : sig = none ∨ ∀ sec t, secret = some sec → ts = some t →
        sig ≠ some (expectedSig hmac sec t rawBody)) :
    ((Main.handler hmac secret ugEnv mapi nowSec nowMs dedup rawBody ts sig payload).1.status = 401 ∧
     (Main.handler hmac secret ugEnv mapi nowSec nowMs dedup rawBody ts sig payload).2.1 = []) ∧
    (((Auga.handler hmac secret ugEnv chEnv aapi nowSec rawBody ts sig payload).1.status = 401 ∨
      (Auga.handler hmac secret ugEnv chEnv aapi nowSec rawBody ts sig payload).1.status = 500) ∧
     (Auga.handler hmac secret ugEnv chEnv aapi nowSec rawBody ts sig payload).2 = []) ∧
    (∀ sec t s, secret = some sec → sec ≠ "" → ts = some t → t ≠ "" →
      replayTooOld nowSec t = false → sig = some s → s ≠ "" →
      s.utf8ByteSize = (expectedSig hmac sec t rawBody).utf8ByteSize →
      (Auga.handler hmac secret ugEnv chEnv aapi nowSec rawBody ts sig payload).1.status = 401) ∧
    (∀ sec t s, secret = some sec → sec ≠ "" → ts = some t → t ≠ "" →
      replayTooOld nowSec t = false → sig = some s → s ≠ "" →
      ¬(s.utf8ByteSize = (expectedSig hmac sec t rawBody).utf8ByteSize) →
      (Auga.handler hmac secret ugEnv chEnv aapi nowSec rawBody ts sig payload).1.status = 500) := by
  have hsig_ne : ∀ sec t, secret = some sec → ts = some t →
      sig ≠ some (expectedSig hmac sec t rawBody) := by
    intro sec t hsec hts hcontra
    rcases hbad with h | h
    · rw [h] at hcontra
      exact Option.noConfusion hcontra
    · exact h sec t hsec hts hcontra
  have hv : verifySlackRequest hmac secret ts sig rawBody nowSec = false := by
    cases hvv : verifySlackRequest hmac secret ts sig rawBody nowSec
    · rfl
    · obtain ⟨sec, t, h1, h2, h3⟩ := verify_true_sig hmac secret ts sig rawBody nowSec hvv
      exact absurd h3 (hsig_ne sec t h1 h2)
  have hmain : Main.handler hmac secret ugEnv mapi nowSec nowMs dedup rawBody ts sig payload =
      (⟨401, false, .text "verification failed"⟩, [], dedup) := by
    simp [Main.handler, hv]
  refine ⟨⟨by rw [hmain], by rw [hmain]⟩, ?_, ?_, ?_⟩
  · cases hve : verifySlackRequestE hmac secret ts sig rawBody nowSec with
    | error e =>
      have h5 : Auga.handler hmac secret ugEnv chEnv aapi nowSec rawBody ts sig payload =
          (⟨500, false, .errJson e⟩, []) := by
        simp [Auga.handler, hve]
      exact ⟨Or.inr (by rw [h5]), by rw [h5]⟩
    | ok b =>
      cases b with
      | true =>
        obtain ⟨sec, t, h1, h2, h3⟩ :=
          verifyE_true_sig hmac secret ts sig rawBody nowSec hve
        exact absurd h3 (hsig_ne sec t h1 h2)
      | false =>
        have h4 : Auga.handler hmac secret ugEnv chEnv aapi nowSec rawBody ts sig payload =
            (⟨401, false, .text "verification failed"⟩, []) := by
          simp [Auga.handler, hve]
        exact ⟨Or.inl (by rw [h4]), by rw [h4]⟩
  · intro sec t s h1 hsec h2 ht hwin h3 hs hlen
    subst h1; subst h2; subst h3
    have hve := verifyE_some_eval hmac sec t s rawBody nowSec hsec ht hs hwin
    rw [timingSafeEqualE, if_pos hlen.symm] at hve
    have hne : (expectedSig hmac sec t rawBody == s) = false :=
      beq_false_of_ne fun he => hsig_ne sec t rfl rfl (congrArg some he.symm)
    rw [hne] at hve
    simp [Auga.handler, hve]
  · intro sec t s h1 hsec h2 ht hwin h3 hs hlen
    subst h1; subst h2; subst h3
    have hve := verifyE_some_eval hmac sec t s rawBody nowSec hsec ht hs hwin
    rw [timingSafeEqualE, if_neg (fun he => hlen he.symm)] at hve
    simp [Auga.handler, hve]

/-- C1 witness: a request with no signature header is answered 401 by the
`src/api` handler with zero outbound calls. -/
theorem C1_amended_witness :
    ((none : Option String) = none ∨ False) ∧
    (Main.handler cHmac (some "s") none cMainApi 0 0 [] "body" (some "0") none
        cPayload).1.status = 401 ∧
    (Main.handler cHmac (some "s") none cMainApi 0 0 [] "body" (some "0") none
        cPayload).2.1 = [] :=
  ⟨Or.inl rfl,
   (C1_amended cHmac (some "s") none none cMainApi cAugaApi 0 0 [] "body" (some "0")
       none cPayload (Or.inl rfl)).1.1,
   (C1_amended cHmac (some "s") none none cMainApi cAugaApi 0 0 [] "body" (some "0")
       none cPayload (Or.inl rfl)).1.2⟩

/-- C7 counterexample: a payload of type `url_verification` whose
`challenge` field is PRESENT but empty is not answered with the challenge
verbatim — JS truthiness skips the handshake branch, the handler falls
through to the missing-`event` check and answers the plain body
`"No event"` with no `text/plain` header, refuting the claim for this
present-challenge payload. -/
theorem C7_counterexample :
    (Main.handler cHmac (some "s") none cMainApi 0 0 [] "" (some "0")
        (some "v0=ff") ⟨some "url_verification", some "", none⟩).1.body =
      Main.RespBody.text "No event" ∧
    ¬((Main.handler cHmac (some "s") none cMainApi 0 0 [] "" (some "0")
        (some "v0=ff") ⟨some "url_verification", some "", none⟩).1.body =
      Main.RespBody.text "") ∧
    (Main.handler cHmac (some "s") none cMainApi 0 0 [] "" (some "0")
        (some "v0=ff") ⟨some "url_verification", some "", none⟩).1.plainHeader = false :=
  ⟨rfl, by decide, rfl⟩

/-- C7 (amended): for every verified payload with type `url_verification`
and a NON-EMPTY `challenge` field, the handler responds 200 with the
`text/plain` header set and the challenge value verbatim as the body,
issues no outbound call, leaves the dedup map untouched, and does so for
any `event` field (none required) before classification or deduplication. -/
theorem C7_amended (hmac : String → String → String) (secret ugEnv : Option String)
    (api : Main.SlackApi) (nowSec nowMs : Int) (dedup : DedupMap) (rawBody : String)
    (ts sig : Option String) (payload : SlackPayload) (c : String)
    (hv : verifySlackRequest hmac secret ts sig rawBody nowSec = true)
    (htype : payload.type = some "url_verification")
    (hch : payload.challenge = some c) (hc : c ≠ "") :
    Main.handler hmac secret ugEnv api nowSec nowMs dedup rawBody ts sig payload =
      (⟨200, true, .text c⟩, [], dedup) := by
  simp [Main.handler, hv, htype, hch, beq_false_of_ne hc]

/-- C7 witness: the spec's own example, challenge `"abc123"`, echoed
verbatim even with no `event` field. -/
theorem C7_amended_witness :
    ("abc123" : String) ≠ "" ∧
    Main.handler cHmac (some "s") none cMainApi 0 0 [] "" (some "0") (some "v0=ff")
        ⟨some "url_verification", some "abc123", none⟩ =
      (⟨200, true, .text "abc123"⟩, [], []) :=
  ⟨by decide,
   C7_amended cHmac (some "s") none cMainApi 0 0 [] "" (some "0") (some "v0=ff")
     ⟨some "url_verification", some "abc123", none⟩ "abc123" (by decide) rfl rfl
     (by decide)⟩

/-- C6: a `user_change` event is actionable exactly when its user is
present, not deleted, and has `is_restricted` equal to `false` (tri-state:
absence or `true` does not qualify); whenever `is_restricted` is anything
other than `false`, or the user is deleted, the verified handler answers
the immediate plain `"Skipped"` response with zero outbound calls and an
untouched dedup map. -/
theorem C6_user_change_classification (hmac : String → String → String)
    (secret ugEnv : Option String) (api : Main.SlackApi) (nowSec nowMs : Int)
    (dedup : DedupMap) (rawBody : String) (ts sig : Option String)
    (payload : SlackPayload) (ev : SlackEvent) (u : SlackUser)
    (hv : verifySlackRequest hmac secret ts sig rawBody nowSec = true)
    (hch : payload.challenge = none) (hev : payload.event = some ev)
    (htype : ev.type = some "user_change") (hu : ev.user = some u) :
    (triggeredBy ev ≠ "" ↔ (u.deleted = false ∧ u.is_restricted = some false)) ∧
    (u.is_restricted ≠ some false →
      Main.handler hmac secret ugEnv api nowSec nowMs dedup rawBody ts sig payload =
        (⟨200, false, .text "Skipped"⟩, [], dedup)) ∧
    (u.deleted = true →
      Main.handler hmac secret ugEnv api nowSec nowMs dedup rawBody ts sig payload =
        (⟨200, false, .text "Skipped"⟩, [], dedup)) := by
  obtain ⟨uid, ud, ur⟩ := u
  have e1 : ((some "user_change" : Option String) == some "team_join") = false := by decide
  have e2 : ((some "user_change" : Option String) == some "user_change") = true := by decide
  have htr : triggeredBy ev =
      if (!ud && (ur == some false)) then "user_change (reactivated)" else "" := by
    rw [triggeredBy, htype, hu, e1, e2]
    simp [userQualifies]
  have hskip : triggeredBy ev = "" →
      Main.handler hmac secret ugEnv api nowSec nowMs dedup rawBody ts sig payload =
        (⟨200, false, .text "Skipped"⟩, [], dedup) := by
    intro h0
    rw [handler_eq_dispatch hmac secret ugEnv api nowSec nowMs dedup rawBody ts sig
      payload hv hch]
    simp [Main.dispatchEvent, hev, h0]
  refine ⟨?_, ?_, ?_⟩
  · rw [htr]
    cases ud <;> rcases ur with _ | b
    · simp
    · cases b <;> simp
    · simp
    · cases b <;> simp
  · intro hr
    have hr' : ur ≠ some false := hr
    refine hskip ?_
    rw [htr, beq_false_of_ne hr']
    simp
  · intro hd
    have hd' : ud = true := hd
    refine hskip ?_
    rw [htr, hd']
    simp

/-- C6 witness: a `user_change` event with `is_restricted` absent is
answered `"Skipped"` with no outbound calls. -/
theorem C6_user_change_classification_witness :
    ((none : Option Bool) ≠ some false) ∧
    Main.handler cHmac (some "s") (some "S1") cMainApi 0 0 [] "body" (some "0")
        (some "v0=ff")
        ⟨some "event_callback", none,
         some ⟨some "user_change", some ⟨some "U0NEWUSER001", false, none⟩⟩⟩ =
      (⟨200, false, .text "Skipped"⟩, [], []) :=
  ⟨by decide,
   (C6_user_change_classification cHmac (some "s") (some "S1") cMainApi 0 0 [] "body"
       (some "0") (some "v0=ff")
       ⟨some "event_callback", none,
        some ⟨some "user_change", some ⟨some "U0NEWUSER001", false, none⟩⟩⟩
       ⟨some "user_change", some ⟨some "U0NEWUSER001", false, none⟩⟩
       ⟨some "U0NEWUSER001", false, none⟩
       (by decide) rfl rfl rfl rfl).2.1 (by decide)⟩

/-- C3: for a verified, actionable event, a dedup record younger than
30000 ms short-circuits the handler with the 200 JSON
`{ok, userId, skipped:true, reason:"recently_processed"}` body, zero
outbound calls and an untouched map; otherwise the handler's returned map
is the freshly stamped map swept of every entry strictly older than
30000 ms — it contains the user's fresh stamp and no entry older than the
window. -/
theorem C3_dedup_window (hmac : String → String → String)
    (secret ugEnv : Option String) (api : Main.SlackApi) (nowSec nowMs : Int)
    (dedup : DedupMap) (rawBody : String) (ts sig : Option String)
    (payload : SlackPayload) (ev : SlackEvent)
    (hv : verifySlackRequest hmac secret ts sig rawBody nowSec = true)
    (hch : payload.challenge = none) (hev : payload.event = some ev)
    (htrig : triggeredBy ev ≠ "") :
    (∀ last, mapGet dedup (ev.user.bind (fun u => u.id)) = some last →
      nowMs - last < DUPLICATE_WINDOW →
      Main.handler hmac secret ugEnv api nowSec nowMs dedup rawBody ts sig payload =
        (⟨200, false, .json ⟨true, ev.user.bind (fun u => u.id), some true,
            some "recently_processed", none, none, none, none⟩⟩, [], dedup)) ∧
    ((∀ last, mapGet dedup (ev.user.bind (fun u => u.id)) = some last →
        DUPLICATE_WINDOW ≤ nowMs - last) →
      ((Main.handler hmac secret ugEnv api nowSec nowMs dedup rawBody ts sig payload).2.2 =
          sweep nowMs (mapSet dedup (ev.user.bind (fun u => u.id)) nowMs) ∧
       mapGet (Main.handler hmac secret ugEnv api nowSec nowMs dedup rawBody ts sig
           payload).2.2 (ev.user.bind (fun u => u.id)) = some nowMs ∧
       ∀ p ∈ (Main.handler hmac secret ugEnv api nowSec nowMs dedup rawBody ts sig
           payload).2.2, nowMs - p.2 ≤ DUPLICATE_WINDOW)) := by
  rw [handler_eq_dispatch hmac secret ugEnv api nowSec nowMs dedup rawBody ts sig
    payload hv hch]
  constructor
  · intro last hlast hlt
    exact dispatch_skips api ugEnv nowMs dedup payload ev last hev htrig hlast hlt
  · intro hmiss
    have hmap := dispatch_map_after_stamp api ugEnv nowMs dedup payload ev hev htrig hmiss
    refine ⟨hmap, ?_, ?_⟩
    · rw [hmap]
      exact mapGet_sweep_mapSet dedup (ev.user.bind (fun u => u.id)) nowMs
    · rw [hmap]
      exact sweep_fresh nowMs (mapSet dedup (ev.user.bind (fun u => u.id)) nowMs)

/-- C3 witness: with a 5 ms old record the second request is skipped with
zero calls; at a concrete miss the returned map is the swept stamp. -/
theorem C3_dedup_window_witness :
    mapGet [(some "U0NEWUSER001", (5 : Int))] (some "U0NEWUSER001") = some 5 ∧
    (10 : Int) - 5 < DUPLICATE_WINDOW ∧
    Main.handler cHmac (some "s") (some "S1") cMainApi 0 10
        [(some "U0NEWUSER001", 5)] "body" (some "0") (some "v0=ff") cPayload =
      (⟨200, false, .json ⟨true, some "U0NEWUSER001", some true,
          some "recently_processed", none, none, none, none⟩⟩, [],
       [(some "U0NEWUSER001", 5)]) :=
  ⟨rfl, by decide,
   (C3_dedup_window cHmac (some "s") (some "S1") cMainApi 0 10
       [(some "U0NEWUSER001", 5)] "body" (some "0") (some "v0=ff") cPayload
       ⟨some "team_join", some ⟨some "U0NEWUSER001", false, none⟩⟩
       (by decide) rfl rfl (by decide)).1 5 rfl (by decide)⟩

/-- C8: for a verified, actionable, not-deduplicated event whose configured
comma-separated group id list resolves to the empty list, the handler
responds HTTP 200 with the success-shaped JSON
`{ok:true, userId, warning:"No usergroups configured"}` and performs no
outbound call at all. -/
theorem C8_empty_group_list (hmac : String → String → String)
    (secret ugEnv : Option String) (api : Main.SlackApi) (nowSec nowMs : Int)
    (dedup : DedupMap) (rawBody : String) (ts sig : Option String)
    (payload : SlackPayload) (ev : SlackEvent)
    (hv : verifySlackRequest hmac secret ts sig rawBody nowSec = true)
    (hch : payload.challenge = none) (hev : payload.event = some ev)
    (htrig : triggeredBy ev ≠ "")
    (hmiss : mapGet dedup (ev.user.bind (fun u => u.id)) = none)
    (hempty : parseIds ugEnv = []) :
    Main.handler hmac secret ugEnv api nowSec nowMs dedup rawBody ts sig payload =
      (⟨200, false, .json ⟨true, ev.user.bind (fun u => u.id), none, none,
          some "No usergroups configured", none, none, none⟩⟩, [],
       sweep nowMs (mapSet dedup (ev.user.bind (fun u => u.id)) nowMs)) := by
  rw [handler_eq_dispatch hmac secret ugEnv api nowSec nowMs dedup rawBody ts sig
    payload hv hch]
  simp [Main.dispatchEvent, hev, beq_false_of_ne htrig, hmiss, hempty,
    Main.noGroupsResp]

/-- C8 witness: `USERGROUP_IDS` unset resolves to the empty list and the
handler answers the warning JSON with zero calls. -/
theorem C8_empty_group_list_witness :
    parseIds none = [] ∧
    Main.handler cHmac (some "s") none cMainApi 0 10 [] "body" (some "0")
        (some "v0=ff") cPayload =
      (⟨200, false, .json ⟨true, some "U0NEWUSER001", none, none,
          some "No usergroups configured", none, none, none⟩⟩, [],
       [(some "U0NEWUSER001", 10)]) :=
  ⟨rfl,
   C8_empty_group_list cHmac (some "s") none cMainApi 0 10 [] "body" (some "0")
     (some "v0=ff") cPayload ⟨some "team_join", some ⟨some "U0NEWUSER001", false, none⟩⟩
     (by decide) rfl rfl (by decide) rfl rfl⟩

/-- C9: the dedup stamp is written regardless of any later outcome — for
EVERY oracle, including one whose every group update fails, the first
accepted request's returned map is the swept map stamped at `nowMs1`, keyed
by the user id alone — so a second verified actionable request for the
same user less than 30000 ms later, even of a different actionable event
type, is short-circuited with the `recently_processed` JSON and zero
outbound calls. -/
theorem C9_stamp_before_calls_keyed_by_user (hmac : String → String → String)
    (secret ugEnv : Option String) (api1 api2 : Main.SlackApi)
    (nowSec1 nowMs1 nowSec2 nowMs2 : Int) (dedup : DedupMap)
    (raw1 raw2 : String) (ts1 sig1 ts2 sig2 : Option String)
    (p1 p2 : SlackPayload) (ev1 ev2 : SlackEvent) (uid : String)
    (hv1 : verifySlackRequest hmac secret ts1 sig1 raw1 nowSec1 = true)
    (hch1 : p1.challenge = none) (hev1 : p1.event = some ev1)
    (huid1 : ev1.user.bind (fun u => u.id) = some uid)
    (htrig1 : triggeredBy ev1 ≠ "")
    (hmiss : mapGet dedup (some uid) = none)
    (hv2 : verifySlackRequest hmac secret ts2 sig2 raw2 nowSec2 = true)
    (hch2 : p2.challenge = none) (hev2 : p2.event = some ev2)
    (huid2 : ev2.user.bind (fun u => u.id) = some uid)
    (htrig2 : triggeredBy ev2 ≠ "")
    (hwin : nowMs2 - nowMs1 < DUPLICATE_WINDOW) :
    ((Main.handler hmac secret ugEnv api1 nowSec1 nowMs1 dedup raw1 ts1 sig1 p1).2.2 =
        sweep nowMs1 (mapSet dedup (some uid) nowMs1)) ∧
    (mapGet (Main.handler hmac secret ugEnv api1 nowSec1 nowMs1 dedup raw1 ts1 sig1
        p1).2.2 (some uid) = some nowMs1) ∧
    (Main.handler hmac secret ugEnv api2 nowSec2 nowMs2
        (Main.handler hmac secret ugEnv api1 nowSec1 nowMs1 dedup raw1 ts1 sig1 p1).2.2
        raw2 ts2 sig2 p2 =
      (⟨200, false, .json ⟨true, some uid, some true, some "recently_processed",
          none, none, none, none⟩⟩, [],
       (Main.handler hmac secret ugEnv api1 nowSec1 nowMs1 dedup raw1 ts1 sig1 p1).2.2)) := by
  have hmiss1 : ∀ last, mapGet dedup (ev1.user.bind (fun u => u.id)) = some last →
      DUPLICATE_WINDOW ≤ nowMs1 - last := by
    intro last h
    rw [huid1, hmiss] at h
    exact Option.noConfusion h
  have m1eq : (Main.handler hmac secret ugEnv api1 nowSec1 nowMs1 dedup raw1 ts1 sig1
      p1).2.2 = sweep nowMs1 (mapSet dedup (some uid) nowMs1) := by
    rw [handler_eq_dispatch hmac secret ugEnv api1 nowSec1 nowMs1 dedup raw1 ts1 sig1
      p1 hv1 hch1]
    rw [dispatch_map_after_stamp api1 ugEnv nowMs1 dedup p1 ev1 hev1 htrig1 hmiss1,
      huid1]
  have hm2 : mapGet (Main.handler hmac secret ugEnv api1 nowSec1 nowMs1 dedup raw1 ts1
      sig1 p1).2.2 (some uid) = some nowMs1 := by
    rw [m1eq]
    exact mapGet_sweep_mapSet dedup (some uid) nowMs1
  refine ⟨m1eq, hm2, ?_⟩
  rw [handler_eq_dispatch hmac secret ugEnv api2 nowSec2 nowMs2 _ raw2 ts2 sig2 p2
    hv2 hch2, ← huid2]
  exact dispatch_skips api2 ugEnv nowMs2 _ p2 ev2 nowMs1 hev2 htrig2
    (by rw [huid2]; exact hm2) hwin

/-- C9 witness: the first request's every group update throws, yet a
`user_change` request for the same user 29999 ms later is still skipped
with zero calls. -/
theorem C9_stamp_before_calls_keyed_by_user_witness :
    Main.handler cHmac (some "s") (some "S1") cMainApi 0 29999
        (Main.handler cHmac (some "s") (some "S1")
          ⟨fun _ => .error "boom", fun _ => .error "boom", fun _ _ => .error "boom",
           fun _ => .error "boom", fun _ => .error "boom"⟩
          0 0 [] "body" (some "0") (some "v0=ff") cPayload).2.2
        "body" (some "0") (some "v0=ff")
        ⟨some "event_callback", none,
         some ⟨some "user_change", some ⟨some "U0NEWUSER001", false, some false⟩⟩⟩ =
      (⟨200, false, .json ⟨true, some "U0NEWUSER001", some true,
          some "recently_processed", none, none, none, none⟩⟩, [],
       (Main.handler cHmac (some "s") (some "S1")
          ⟨fun _ => .error "boom", fun _ => .error "boom", fun _ _ => .error "boom",
           fun _ => .error "boom", fun _ => .error "boom"⟩
          0 0 [] "body" (some "0") (some "v0=ff") cPayload).2.2) :=
  (C9_stamp_before_calls_keyed_by_user cHmac (some "s") (some "S1")
    ⟨fun _ => .error "boom", fun _ => .error "boom", fun _ _ => .error "boom",
     fun _ => .error "boom", fun _ => .error "boom"⟩
    cMainApi 0 0 0 29999 [] "body" "body" (some "0") (some "v0=ff") (some "0")
    (some "v0=ff") cPayload
    ⟨some "event_callback", none,
     some ⟨some "user_change", some ⟨some "U0NEWUSER001", false, some false⟩⟩⟩
    ⟨some "team_join", some ⟨some "U0NEWUSER001", false, none⟩⟩
    ⟨some "user_change", some ⟨some "U0NEWUSER001", false, some false⟩⟩
    "U0NEWUSER001" (by decide) rfl rfl rfl (by decide) rfl (by decide) rfl rfl rfl
    (by decide) (by decide)).2.2

/-- C10: when the target user is absent from the fetched member list, the
list sent to the update call is NOT the fetched list plus the user: both
cleanup variants send the fetched list FILTERED by the validity predicate
(truthy, starting with "U", longer than 10 characters; the third variant's
predicate also drops the configured bot user id) with the target user
appended — so an existing member whose id fails the predicate is silently
dropped by the full-replace write. -/
theorem C10_cleanup_filter (api : Main.SlackApi) (uid ug botUserId : String)
    (users : List String)
    (hl : api.listUsers ug = .ok (some users))
    (hnm : users.contains uid = false) :
    ((Main.processGroup api (some uid) ug).2.1 =
      [.listUsers ug,
       .updateUsers ug (joinUsers (users.filter Main.validId) (some uid))]) ∧
    ((V3.processGroup api botUserId (some uid) ug).2 =
      [.listUsers ug,
       .updateUsers ug (joinUsers (users.filter (V3.validId botUserId)) (some uid))]) ∧
    (∀ bad ∈ users, Main.validId bad = false → bad ≠ uid →
      bad ∉ users.filter Main.validId ++ [uid]) ∧
    (∀ bad ∈ users, V3.validId botUserId bad = false → bad ≠ uid →
      bad ∉ users.filter (V3.validId botUserId) ++ [uid]) := by
  have hmem : Main.memberAlready (some users) (some uid) = false := hnm
  refine ⟨?_, ?_, ?_, ?_⟩
  · cases hu : api.updateUsers ug (joinUsers (users.filter Main.validId) (some uid)) with
    | error e => simp [Main.processGroup, hl, hmem, hu]
    | ok r =>
      by_cases hr : r.ok = true
      · simp [Main.processGroup, hl, hmem, hu, hr]
      · simp [Main.processGroup, hl, hmem, hu, hr]
  · cases hu : api.updateUsers ug
        (joinUsers (users.filter (V3.validId botUserId)) (some uid)) with
    | error e => simp [V3.processGroup, hl, hmem, hu]
    | ok r => simp [V3.processGroup, hl, hmem, hu]
  · intro bad _ hval hne hin
    rcases List.mem_append.mp hin with h | h
    · rw [List.mem_filter] at h
      rw [hval] at h
      exact Bool.noConfusion h.2
    · exact hne (List.mem_singleton.mp h)
  · intro bad _ hval hne hin
    rcases List.mem_append.mp hin with h | h
    · rw [List.mem_filter] at h
      rw [hval] at h
      exact Bool.noConfusion h.2
    · exact hne (List.mem_singleton.mp h)

/-- A fetched membership list holding one valid member, one invalid id
(`"x"`), and one valid id equal to the configured bot id. -/
def cC10Api : Main.SlackApi :=
  ⟨fun _ => .ok false,
   fun _ => .ok (some ["U0EXISTING01", "x", "U0BOTBOTBOT1"]),
   fun _ _ => .ok ⟨true, none⟩,
   fun _ => .ok (true, some "D0CHANNEL001"),
   fun _ => .ok ⟨true, none⟩⟩

/-- C10 witness: the invalid member `"x"` is in the fetched list but absent
from the full-replace update payload; the third variant additionally drops
the bot id. -/
theorem C10_cleanup_filter_witness :
    (Main.processGroup cC10Api (some "U0NEWUSER001") "S1").2.1 =
      [.listUsers "S1",
       .updateUsers "S1" "U0EXISTING01,U0BOTBOTBOT1,U0NEWUSER001"] ∧
    (V3.processGroup cC10Api "U0BOTBOTBOT1" (some "U0NEWUSER001") "S1").2 =
      [.listUsers "S1", .updateUsers "S1" "U0EXISTING01,U0NEWUSER001"] ∧
    ("x" : String) ∈ ["U0EXISTING01", "x", "U0BOTBOTBOT1"] ∧
    ("x" : String) ∉
      (["U0EXISTING01", "x", "U0BOTBOTBOT1"].filter Main.validId ++ ["U0NEWUSER001"]) :=
  ⟨(C10_cleanup_filter cC10Api "U0NEWUSER001" "S1" "U0BOTBOTBOT1"
      ["U0EXISTING01", "x", "U0BOTBOTBOT1"] rfl (by decide)).1,
   (C10_cleanup_filter cC10Api "U0NEWUSER001" "S1" "U0BOTBOTBOT1"
      ["U0EXISTING01", "x", "U0BOTBOTBOT1"] rfl (by decide)).2.1,
   by decide,
   (C10_cleanup_filter cC10Api "U0NEWUSER001" "S1" "U0BOTBOTBOT1"
      ["U0EXISTING01", "x", "U0BOTBOTBOT1"] rfl (by decide)).2.2.1 "x" (by decide)
     (by decide) (by decide)⟩

/-- C4: with configured groups `G1` (already containing `U1`) and `G2` (not
containing `U1`), the Auto User Group Adder records
`{G1: ok, updated:false, reason:"already a member"}` with no update call
for `G1`, and issues exactly one update call — for `G2`, whose user list is
`G2`'s prior member list with `U1` appended — recording
`{G2: ok, updated:true}`; the `src/api` loop behaves identically when
`G2`'s prior members all pass its cleanup predicate (otherwise see C10). -/
theorem C4_two_groups (aapi : Auga.AugaApi) (mapi : Main.SlackApi)
    (env : Option String) (g1 g2 u1 : String) (users1 users2 : List String)
    (henv : parseIds env = [g1, g2])
    (ha1 : aapi.listUsers g1 = .ok ⟨true, some users1, none⟩)
    (ham1 : users1.contains u1 = true)
    (ha2 : aapi.listUsers g2 = .ok ⟨true, some users2, none⟩)
    (ham2 : users2.contains u1 = false)
    (ha3 : aapi.updateUsers g2 (joinComma (users2 ++ [u1])) = .ok ⟨true, none⟩)
    (hm1 : mapi.listUsers g1 = .ok (some users1))
    (hm2 : mapi.listUsers g2 = .ok (some users2))
    (hval : ∀ m ∈ users2, Main.validId m = true)
    (hm3 : mapi.updateUsers g2 (joinUsers users2 (some u1)) = .ok ⟨true, none⟩) :
    Auga.addUserToUsergroups aapi env u1 =
      (.ok (.results [⟨g1, true, some false, some "already a member", none⟩,
                      ⟨g2, true, some true, none, none⟩]),
       [.listUsers g1, .listUsers g2,
        .updateUsers g2 (joinComma (users2 ++ [u1]))]) ∧
    Main.runGroups mapi (some u1) [g1, g2] =
      ⟨[⟨g1, true, some false, some "already a member", none⟩,
        ⟨g2, true, some true, none, none⟩],
       [.listUsers g1, .listUsers g2, .updateUsers g2 (joinUsers users2 (some u1))],
       [g2]⟩ := by
  have hin1 : u1 ∈ users1 := by simpa using ham1
  have hin2 : u1 ∉ users2 := by simpa using ham2
  constructor
  · rw [Auga.addUserToUsergroups, henv]
    simp [Auga.addLoop, ha1, ha2, ha3, hin1, hin2, Except.map]
  · have hmem1 : Main.memberAlready (some users1) (some u1) = true := ham1
    have hmem2 : Main.memberAlready (some users2) (some u1) = false := ham2
    have hfil : users2.filter Main.validId = users2 :=
      List.filter_eq_self.mpr hval
    simp [Main.runGroups, Main.stepGroup, Main.processGroup, hm1, hm2, hmem1, hmem2,
      hfil, hm3]

/-- The two oracles of the C4 witness: `G1 = "S1"` already contains the
joining user, `G2 = "S2"` contains one other member. -/
def c4AugaApi : Auga.AugaApi :=
  ⟨fun g => if g == "S1" then .ok ⟨true, some ["U0NEWUSER001"], none⟩
            else .ok ⟨true, some ["U0EXISTING01"], none⟩,
   fun _ _ => .ok ⟨true, none⟩,
   fun _ _ => ⟨true, none⟩⟩

def c4MainApi : Main.SlackApi :=
  ⟨fun _ => .ok false,
   fun g => if g == "S1" then .ok (some ["U0NEWUSER001"])
            else .ok (some ["U0EXISTING01"]),
   fun _ _ => .ok ⟨true, none⟩,
   fun _ => .ok (true, some "D0CHANNEL001"),
   fun _ => .ok ⟨true, none⟩⟩

/-- C4 witness: concrete two-group run with the exact singleton update call
for `G2` carrying `"U0EXISTING01,U0NEWUSER001"`. -/
theorem C4_two_groups_witness :
    Auga.addUserToUsergroups c4AugaApi (some "S1,S2") "U0NEWUSER001" =
      (.ok (.results [⟨"S1", true, some false, some "already a member", none⟩,
                      ⟨"S2", true, some true, none, none⟩]),
       [.listUsers "S1", .listUsers "S2",
        .updateUsers "S2" "U0EXISTING01,U0NEWUSER001"]) ∧
    Main.runGroups c4MainApi (some "U0NEWUSER001") ["S1", "S2"] =
      ⟨[⟨"S1", true, some false, some "already a member", none⟩,
        ⟨"S2", true, some true, none, none⟩],
       [.listUsers "S1", .listUsers "S2",
        .updateUsers "S2" "U0EXISTING01,U0NEWUSER001"],
       ["S2"]⟩ :=
  ⟨(C4_two_groups c4AugaApi c4MainApi (some "S1,S2") "S1" "S2" "U0NEWUSER001"
      ["U0NEWUSER001"] ["U0EXISTING01"] (by decide) rfl (by decide) rfl (by decide)
      rfl rfl rfl (by decide) rfl).1,
   (C4_two_groups c4AugaApi c4MainApi (some "S1,S2") "S1" "S2" "U0NEWUSER001"
      ["U0NEWUSER001"] ["U0EXISTING01"] (by decide) rfl (by decide) rfl (by decide)
      rfl rfl rfl (by decide) rfl).2⟩

/-- The sequential fold of the `src/api` loop touches each group
independently: its `ugResults` is the map of the per-group body over the
configured list (partial-failure isolation). -/
theorem runGroups_results_eq (api : Main.SlackApi) (userId : Option String)
    (groups : List String) :
    (Main.runGroups api userId groups).results =
      groups.map (fun g => (Main.processGroup api userId g).1) := by
  have aux : ∀ (gs : List String) (acc : Main.LoopAcc),
      (gs.foldl (Main.stepGroup api userId) acc).results =
        acc.results ++ gs.map (fun g => (Main.processGroup api userId g).1) := by
    intro gs
    induction gs with
    | nil => intro acc; simp
    | cons g rest ih =>
      intro acc
      rw [List.foldl_cons, ih, List.map_cons]
      simp [Main.stepGroup]
  simpa using aux groups ⟨[], [], []⟩

/-- Same isolation for the `part_000` loop. -/
theorem P0_runGroups_results_eq (api : Main.SlackApi) (userId : Option String)
    (groups : List String) :
    (P0.runGroups api userId groups).1 =
      groups.map (fun g => (P0.processGroup api userId g).1) := by
  have aux : ∀ (gs : List String) (acc : List UgResult × List ApiCall),
      (gs.foldl (fun acc ug =>
          let r := P0.processGroup api userId ug
          (acc.1 ++ [r.1], acc.2 ++ r.2)) acc).1 =
        acc.1 ++ gs.map (fun g => (P0.processGroup api userId g).1) := by
    intro gs
    induction gs with
    | nil => intro acc; simp
    | cons g rest ih =>
      intro acc
      rw [List.foldl_cons, ih, List.map_cons]
      simp
  simpa [P0.runGroups] using aux groups ([], [])

/-- The oracle of the C5 counterexample and witness: both groups hold one
member, the update for `"S1"` returns the platform error `invalid_users`
(an API error result, not a throw), the update for any other group
succeeds. -/
def c5Api : Main.SlackApi :=
  ⟨fun _ => .ok false,
   fun _ => .ok (some ["U0EXISTING01"]),
   fun g _ => if g == "S1" then .ok ⟨false, some "invalid_users"⟩
              else .ok ⟨true, none⟩,
   fun _ => .ok (true, some "D0CHANNEL001"),
   fun _ => .ok ⟨true, none⟩⟩

/-- C5 counterexample: in the `part_000` loop, when the update call for a
group returns the API error result `{ok:false, error:"invalid_users"}`, the
recorded entry still carries `updated:true` — `ok` and `updated` do NOT
correctly reflect the group's outcome, refuting the claim's "updated true
only when the external update succeeded" for this cited variant. -/
theorem C5_counterexample :
    c5Api.updateUsers "S1" "U0EXISTING01,U0NEWUSER001" =
      .ok ⟨false, some "invalid_users"⟩ ∧
    (P0.processGroup c5Api (some "U0NEWUSER001") "S1").1.ok = false ∧
    (P0.processGroup c5Api (some "U0NEWUSER001") "S1").1.updated = some true :=
  ⟨rfl, rfl, rfl⟩

/-- C5 (amended): in every looping variant a per-group failure does not
abort the loop — the result list is exactly the independent per-group
outcomes, one entry per configured group, and a failing group's entry
records the error.  In the signature-verifying `src/api` variant the flags
are correct: a thrown or error list call and a thrown update give
`{ok:false, error}` with no `updated` field, an `ok:false` update result
gives `{ok:false, error}`, and `updated:true` is recorded exactly when the
update call returned `ok:true`.  In the `part_000` variant, however, every
update call that does not throw records `updated:true` regardless of
`result.ok` (with `ok` and `error` still copied from the result). -/
theorem C5_amended :
    (∀ (api : Main.SlackApi) (uid : Option String) (groups : List String),
      (Main.runGroups api uid groups).results =
        groups.map (fun g => (Main.processGroup api uid g).1)) ∧
    (∀ (api : Main.SlackApi) (uid : Option String) (groups : List String),
      (P0.runGroups api uid groups).1 =
        groups.map (fun g => (P0.processGroup api uid g).1)) ∧
    (∀ (api : Main.SlackApi) (uid : Option String) (ug msg : String),
      api.listUsers ug = .error msg →
      (Main.processGroup api uid ug).1 = ⟨ug, false, none, none, some msg⟩) ∧
    (∀ (api : Main.SlackApi) (uid : Option String) (ug : String)
        (usersOpt : Option (List String)),
      api.listUsers ug = .ok usersOpt →
      Main.memberAlready usersOpt uid = true →
      (Main.processGroup api uid ug).1 =
        ⟨ug, true, some false, some "already a member", none⟩) ∧
    (∀ (api : Main.SlackApi) (uid : Option String) (ug : String)
        (usersOpt : Option (List String)) (r : UpdResp),
      api.listUsers ug = .ok usersOpt →
      Main.memberAlready usersOpt uid = false →
      api.updateUsers ug (joinUsers ((usersOpt.getD []).filter Main.validId) uid) =
        .ok r →
      (Main.processGroup api uid ug).1 =
        (if r.ok then ⟨ug, true, some true, none, none⟩
         else ⟨ug, false, none, none, r.error⟩)) ∧
    (∀ (api : Main.SlackApi) (uid : Option String) (ug : String)
        (usersOpt : Option (List String)) (msg : String),
      api.listUsers ug = .ok usersOpt →
      Main.memberAlready usersOpt uid = false →
      api.updateUsers ug (joinUsers ((usersOpt.getD []).filter Main.validId) uid) =
        .error msg →
      (Main.processGroup api uid ug).1 = ⟨ug, false, none, none, some msg⟩) ∧
    (∀ (api : Main.SlackApi) (uid : Option String) (ug : String)
        (usersOpt : Option (List String)) (r : UpdResp),
      api.listUsers ug = .ok usersOpt →
      Main.memberAlready usersOpt uid = false →
      api.updateUsers ug
          (joinComma (P0.jsSetDedup ((usersOpt.getD []) ++ [uid.getD ""]))) = .ok r →
      (P0.processGroup api uid ug).1 = ⟨ug, r.ok, some true, none, r.error⟩) := by
  refine ⟨runGroups_results_eq, P0_runGroups_results_eq, ?_, ?_, ?_, ?_, ?_⟩
  · intro api uid ug msg hl
    simp [Main.processGroup, hl]
  · intro api uid ug usersOpt hl hmem
    simp [Main.processGroup, hl, hmem]
  · intro api uid ug usersOpt r hl hmem hu
    by_cases hr : r.ok = true
    · simp [Main.processGroup, hl, hmem, hu, hr]
    · simp [Main.processGroup, hl, hmem, hu, hr]
  · intro api uid ug usersOpt msg hl hmem hu
    simp [Main.processGroup, hl, hmem, hu]
  · intro api uid ug usersOpt r hl hmem hu
    simp [P0.processGroup, hl, hmem, hu]

/-- C5 witness: group `"S1"` fails with an API error result, `"S2"` is
still processed and succeeds; the `src/api` entries are correct while the
`part_000` entry for the failing group carries `ok:false` AND
`updated:true`. -/
theorem C5_amended_witness :
    (Main.runGroups c5Api (some "U0NEWUSER001") ["S1", "S2"]).results =
      [⟨"S1", false, none, none, some "invalid_users"⟩,
       ⟨"S2", true, some true, none, none⟩] ∧
    (P0.runGroups c5Api (some "U0NEWUSER001") ["S1", "S2"]).1 =
      [⟨"S1", false, some true, none, some "invalid_users"⟩,
       ⟨"S2", true, some true, none, none⟩] := by
  constructor
  · rw [C5_amended.1 c5Api (some "U0NEWUSER001") ["S1", "S2"]]
    rfl
  · rw [C5_amended.2.1 c5Api (some "U0NEWUSER001") ["S1", "S2"]]
    rfl

end Nabolag
